import Mathlib

/-!
Verification of the broadcaster server's transport state machines.

Shallow embedding of `websocket.go` and `longpoll.go` from the broadcaster
repository.  Messages (`clientMessage` in Go, a string map) are modelled as
association lists; the side effects of a handler (frames written, close
frames, commands sent to the hub, reads of a command's `Done` channel) are
modelled as an explicit event trace, in the order the code performs them.
-/

namespace Broadcaster

/-- Go's `clientMessage` (a map from string keys to string values),
modelled as an association list; lookup of a missing key yields the zero
value `""`, as Go map indexing does. -/
abbrev clientMessage := List (String × String)

/-- `m[k]` with Go map semantics: the stored value, or `""` when absent. -/
def cmGet (m : clientMessage) (k : String) : String :=
  match m.lookup k with
  | some v => v
  | none => ""

/-- Whether key `k` is present in the map (Go's comma-ok form). -/
def cmHas (m : clientMessage) (k : String) : Bool :=
  (m.lookup k).isSome

/-- `m[k] = v`: Go map assignment (replace any existing binding). The pair
order is irrelevant to lookups, matching Go's unordered maps. -/
def cmSet (m : clientMessage) (k v : String) : clientMessage :=
  (k, v) :: m.filter (fun p => p.1 != k)

/-- Modelled from the spec: the message-type constants live in a file of
this repository not present under src (`messages.go`); §3 of the spec lists
the ten recognized types and the test file pins `MessageMessage` to
`"message"`.  Only their distinctness matters to the claims; the concrete
strings are representative. -/
def AuthMessage : String := "auth"

def AuthOKMessage : String := "authOk"

def AuthFailedMessage : String := "authFailed"

def SubscribeMessage : String := "subscribe"

def SubscribeOKMessage : String := "subscribeOk"

def SubscribeErrorMessage : String := "subscribeError"

def UnsubscribeMessage : String := "unsubscribe"

def UnsubscribeOKMessage : String := "unsubscribeOk"

def MessageMessage : String := "message"

def UnknownMessage : String := "unknown"

/-- The nine concrete wire types; anything else is `UnknownMessage`. -/
def recognizedTypes : List String :=
  [AuthMessage, AuthOKMessage, AuthFailedMessage, SubscribeMessage,
   SubscribeOKMessage, SubscribeErrorMessage, UnsubscribeMessage,
   UnsubscribeOKMessage, MessageMessage]

/-- Modelled from the spec: `clientMessage.Type()` is defined in the missing
`messages.go`.  Per spec §3 the discriminator key is `__type` on the
long-poll transport and `type` on the socket transport, and a message with
any other type or no type is `UnknownMessage`. -/
def mType (m : clientMessage) : String :=
  let t := if cmHas m "__type" then cmGet m "__type" else cmGet m "type"
  if recognizedTypes.contains t then t else UnknownMessage

/-- Modelled from the spec: `clientMessage.Token()` from the missing
`messages.go`; the long-poll token travels under the reserved `__token`
key (spec §6). -/
def mToken (m : clientMessage) : String := cmGet m "__token"

/-- `c.Server.CanConnect != nil && !c.Server.CanConnect(auth)`:
refuses only when the predicate is supplied and returns false. -/
def refusesConnect (cc : Option (clientMessage → Bool)) (auth : clientMessage) : Bool :=
  match cc with
  | some f => !(f auth)
  | none => false

/-- `c.Server.CanSubscribe != nil && !c.Server.CanSubscribe(auth, channel)`. -/
def refusesSubscribe (cs : Option (clientMessage → String → Bool))
    (auth : clientMessage) (ch : String) : Bool :=
  match cs with
  | some f => !(f auth ch)
  | none => false

/-! ### Websocket transport (`websocket.go`) -/

/-- Observable effects of the websocket handshake goroutine, in program
order: frames written to the client, close frames, and commands sent to the
hub channels, plus the blocking receive on a subscription's `Done` channel. -/
inductive WsEvent where
  | wsClose : Nat → String → WsEvent
  | wsWrite : clientMessage → WsEvent
  | hubNewClient : WsEvent
  | hubClientDisconnect : WsEvent
  | hubSubscribe : String → WsEvent
  | hubUnsubscribe : String → WsEvent
  | awaitDone : String → WsEvent
  deriving DecidableEq, Repr

/-- The connection's transport state: whether the underlying conn has been
closed, and the accumulated event trace. -/
structure WsState where
  closed : Bool
  events : List WsEvent
  deriving DecidableEq, Repr

def initWs : WsState := ⟨false, []⟩

/-- Append a hub-side event (hub channel sends succeed regardless of the
conn's state). -/
def emit (st : WsState) (e : WsEvent) : WsState := ⟨st.closed, st.events ++ [e]⟩

/-- `websocketConnection.Close(code, msg)`: writes a close frame and tears
the conn down.  On an already-closed conn the write fails and nothing is
observable. -/
def wsConnClose (st : WsState) (code : Nat) (reason : String) : WsState :=
  if st.closed then st else ⟨true, st.events ++ [WsEvent.wsClose code reason]⟩

/-- `conn.WriteJSON(m)`: observable only while the conn is open. -/
def wsWrite (st : WsState) (m : clientMessage) : WsState :=
  if st.closed then st else ⟨st.closed, st.events ++ [WsEvent.wsWrite m]⟩

def authOkMsg : clientMessage := [("type", AuthOKMessage)]

def subscribeOkMsg (ch : String) : clientMessage :=
  [("type", SubscribeOKMessage), ("channel", ch)]

def subscribeErrMsg (ch e : String) : clientMessage :=
  [("type", SubscribeErrorMessage), ("channel", ch), ("error", e)]

def unsubscribeOkMsg (ch : String) : clientMessage :=
  [("type", UnsubscribeOKMessage), ("channel", ch)]

/-- The reply written after `err := <-s.Done`: SubscribeError on an error,
SubscribeOK otherwise. -/
def wsSubReply (ch : String) (e : Option String) : clientMessage :=
  match e with
  | some msg => subscribeErrMsg ch msg
  | none => subscribeOkMsg ch

/-- One iteration of the authenticated read loop's `switch m["type"]`
(`websocket.go` lines 61-109).  `dones k` is the value the k-th receive
from a subscription's `Done` channel yields; the returned `Nat` counts the
receives performed so far.  Note the `default` branch's `break` exits only
the switch, so the step reports the closed conn and the loop terminates on
the next read. -/
def wsStep (cs : Option (clientMessage → String → Bool)) (auth m : clientMessage)
    (dones : Nat → Option String) (k : Nat) (st : WsState) : WsState × Nat :=
  if cmGet m "type" == SubscribeMessage then
    let ch := cmGet m "channel"
    if refusesSubscribe cs auth ch then
      (wsConnClose st 403 "Channel refused", k)
    else
      let st1 := emit (emit st (WsEvent.hubSubscribe ch)) (WsEvent.awaitDone ch)
      (wsWrite st1 (wsSubReply ch (dones k)), k + 1)
  else if cmGet m "type" == UnsubscribeMessage then
    let ch := cmGet m "channel"
    (wsWrite (emit st (WsEvent.hubUnsubscribe ch)) (unsubscribeOkMsg ch), k)
  else
    (wsConnClose st 400 "Unexpected message", k)

/-- The `for` read loop (`websocket.go` lines 54-110).  `inputs` is the
sequence of `conn.ReadJSON` outcomes the peer supplies (`none` = read
error); a read on a closed conn fails regardless.  Returns the final state
and whether the loop exited (`break`); an exhausted input list means the
loop is still blocked reading, so the trace is complete as-is. -/
def wsLoop (cs : Option (clientMessage → String → Bool)) (auth : clientMessage)
    (inputs : List (Option clientMessage)) (dones : Nat → Option String) (k : Nat)
    (st : WsState) : WsState × Bool :=
  match inputs with
  | [] => (st, false)
  | i :: rest =>
    if st.closed then (st, true)
    else
      match i with
      | none => (wsConnClose st 400 "read error", true)
      | some m =>
        let p := wsStep cs auth m dones k st
        wsLoop cs auth rest dones p.2 p.1

/-- `websocketConnection.handshake` after a successful upgrade
(`websocket.go` lines 30-111): read the auth frame, gate on `CanConnect`,
reply AuthOK, register with the hub, run the read loop, and on loop exit
run the deferred `hub.ClientDisconnect`. -/
def wsHandshake (cc : Option (clientMessage → Bool))
    (cs : Option (clientMessage → String → Bool))
    (inputs : List (Option clientMessage)) (dones : Nat → Option String) :
    WsState × Bool :=
  match inputs with
  | [] => (initWs, false)
  | i :: rest =>
    match i with
    | none => (wsConnClose initWs 401 "Auth expected", true)
    | some auth =>
      if cmGet auth "type" != AuthMessage then
        (wsConnClose initWs 401 "Auth expected", true)
      else if refusesConnect cc auth then
        (wsConnClose initWs 401 "Unauthorized", true)
      else
        let st := emit (wsWrite initWs authOkMsg) WsEvent.hubNewClient
        let p := wsLoop cs auth rest dones 0 st
        if p.2 then (emit p.1 WsEvent.hubClientDisconnect, true) else (p.1, false)

/-! ### Long-poll transport (`longpoll.go`) -/

/-- Observable effects of `longpollConnection.Handle` processing one
subsequent request, in program order: a JSON-array reply, an
`http.Error` response, a send to `hub.Subscribe`, and the blocking
receive on the subscription's `Done` channel.  `Handle`'s switch has no
other hub interaction. -/
inductive LpEvent where
  | reply : List clientMessage → LpEvent
  | httpError : Nat → String → LpEvent
  | hubSubscribe : String → LpEvent
  | awaitDone : String → LpEvent
  deriving DecidableEq, Repr

def lpAuthFailedMsg (reason : String) : clientMessage :=
  [("__type", AuthFailedMessage), ("reason", reason)]

def lpAuthOkMsg (token : String) : clientMessage :=
  [("__type", AuthOKMessage), ("__token", token)]

def lpSubscribeOkMsg (ch : String) : clientMessage :=
  [("__type", SubscribeOKMessage), ("channel", ch)]

def lpSubscribeErrMsg (ch e : String) : clientMessage :=
  [("__type", SubscribeErrorMessage), ("channel", ch), ("error", e)]

/-- The reply `Handle` sends after `err := <-s.Done`. -/
def lpSubReply (ch : String) (e : Option String) : clientMessage :=
  match e with
  | some msg => lpSubscribeErrMsg ch msg
  | none => lpSubscribeOkMsg ch

/-- Result of the long-poll handshake HTTP exchange: status code, response
body (always a JSON array of messages), whether the connection was
registered with the hub (`hub.NewClient <- c`), and the Go error returned. -/
structure LpHandshakeResult where
  status : Nat
  body : List clientMessage
  registered : Bool
  err : Option String
  deriving DecidableEq, Repr

/-- `longpollConnection.handshake` (`longpoll.go` lines 32-56).  `token` is
the connection's freshly minted `uuid.New()` token, assigned in
`newLongpollConnection` before the handshake runs.  A reply without an
explicit `WriteHeader` carries HTTP 200. -/
def lpHandshake (cc : Option (clientMessage → Bool)) (auth : clientMessage)
    (token : String) : LpHandshakeResult :=
  if mType auth != AuthMessage then
    ⟨401, [lpAuthFailedMsg "Auth expected"], false, some "Auth expected"⟩
  else if refusesConnect cc auth then
    ⟨401, [lpAuthFailedMsg "Unauthorized"], false, some "Unauthorized"⟩
  else
    ⟨200, [lpAuthOkMsg token], true, none⟩

/-- `longpollConnection.Handle` (`longpoll.go` lines 65-105): the dispatch
switch on `m.Type()` for a subsequent request.  `done` is the value the
receive from the subscription's `Done` channel yields.  The switch has a
`SubscribeMessage` case and a `default` case only. -/
def lpHandle (cs : Option (clientMessage → String → Bool))
    (authData m : clientMessage) (done : Option String) : List LpEvent :=
  if mType m == SubscribeMessage then
    let ch := cmGet m "channel"
    if refusesSubscribe cs authData ch then
      [LpEvent.reply [lpSubscribeErrMsg ch "Channel refused"]]
    else
      [LpEvent.hubSubscribe ch, LpEvent.awaitDone ch,
       LpEvent.reply [lpSubReply ch done]]
  else
    [LpEvent.httpError 400 "Unexpected message"]

/-- `longpollConnection.Send` (`longpoll.go` lines 62-63): the body is
empty.  The source struct has no outbox field at all; the spec's pending
queue is passed explicitly here so the claim about it can be stated:
`Send` ignores its arguments and touches no state. -/
def lpConnSend (pending : List clientMessage) (channel message : String) :
    List clientMessage :=
  pending

/-! ### Long-poll client transport (`longpoll.go` lines 107-183) -/

/-- `longpollClientTransport`: the captured token (Go zero value `""`) and
the buffered `messages` channel's contents. -/
structure LongpollClientTransport where
  token : String
  messages : List clientMessage
  deriving DecidableEq, Repr

def newLpTransport : LongpollClientTransport := ⟨"", []⟩

/-- `longpollClientTransport.Send` (`longpoll.go` lines 143-164): set
`data["__token"] = t.token`, POST the body, append the decoded response
array to the `messages` channel.  Returns the new state and the body that
was posted. -/
def lpClientSend (t : LongpollClientTransport) (data : clientMessage)
    (response : List clientMessage) : LongpollClientTransport × clientMessage :=
  let body := cmSet data "__token" t.token
  (⟨t.token, t.messages ++ response⟩, body)

/-- `longpollClientTransport.Connect` (`longpoll.go` lines 124-136):
stamp `__type = AuthMessage` onto the auth data (replaced by an empty map
under `skip_auth`) and send it. -/
def lpClientConnect (t : LongpollClientTransport) (authData : clientMessage)
    (skipAuth : Bool) (response : List clientMessage) :
    LongpollClientTransport × clientMessage :=
  let data := cmSet authData "__type" AuthMessage
  let data := if skipAuth then [] else data
  lpClientSend t data response

/-- `longpollClientTransport.Receive` (`longpoll.go` lines 166-175): pop
the next message; when it is an AuthOKMessage, capture its token. -/
def lpClientReceive (t : LongpollClientTransport) :
    LongpollClientTransport × Option clientMessage :=
  match t.messages with
  | [] => (t, none)
  | m :: rest =>
    if mType m == AuthOKMessage then (⟨mToken m, rest⟩, some m)
    else (⟨t.token, rest⟩, some m)

/-! ### Hub view

The hub itself (`hub.go`) is not under src; the claims only need that a
refused or unrecognized request sends it no command, so its tables cannot
change.  To make "tables unchanged" explicit we model, from the spec, the
hub state visible to a single connection and how the commands this
connection emits act on it. -/

/-- Modelled from the spec (§3, §4.1): the hub state relevant to one
connection — membership in the live set and the channels it is
subscribed to. -/
structure HubView where
  registered : Bool
  subs : List String
  deriving DecidableEq, Repr

/-- The hub commands among a websocket trace's events. -/
def wsHubCmds (es : List WsEvent) : List WsEvent :=
  es.filter fun e =>
    match e with
    | WsEvent.hubNewClient => true
    | WsEvent.hubClientDisconnect => true
    | WsEvent.hubSubscribe _ => true
    | WsEvent.hubUnsubscribe _ => true
    | _ => false

/-- The hub commands among a long-poll trace's events. -/
def lpHubCmds (es : List LpEvent) : List LpEvent :=
  es.filter fun e =>
    match e with
    | LpEvent.hubSubscribe _ => true
    | _ => false

/-- Modelled from the spec (§4.1): how one websocket hub command acts on
the connection's hub view. -/
def applyWsCmd (h : HubView) (e : WsEvent) : HubView :=
  match e with
  | WsEvent.hubNewClient => ⟨true, h.subs⟩
  | WsEvent.hubClientDisconnect => ⟨false, []⟩
  | WsEvent.hubSubscribe ch =>
      if h.subs.contains ch then h else ⟨h.registered, h.subs ++ [ch]⟩
  | WsEvent.hubUnsubscribe ch => ⟨h.registered, h.subs.filter (fun c => c != ch)⟩
  | _ => h

/-- Modelled from the spec (§4.1): how one long-poll hub command acts on
the connection's hub view. -/
def applyLpCmd (h : HubView) (e : LpEvent) : HubView :=
  match e with
  | LpEvent.hubSubscribe ch =>
      if h.subs.contains ch then h else ⟨h.registered, h.subs ++ [ch]⟩
  | _ => h

/-! ### Concrete fixtures -/

def denyAllSub : Option (clientMessage → String → Bool) := some (fun _ _ => false)

def authReq : clientMessage := [("type", AuthMessage)]

def subMsg (ch : String) : clientMessage := [("type", SubscribeMessage), ("channel", ch)]

def unsubMsg (ch : String) : clientMessage :=
  [("type", UnsubscribeMessage), ("channel", ch)]

def blaMsg : clientMessage := [("type", "bla")]

def lpAuthReq : clientMessage := [("__type", AuthMessage)]

def lpSubMsg (ch : String) : clientMessage :=
  [("__type", SubscribeMessage), ("channel", ch)]

def lpUnsubMsg (ch : String) : clientMessage :=
  [("__type", UnsubscribeMessage), ("channel", ch)]

def noDones : Nat → Option String := fun _ => none

/-! ### Helper lemmas -/

/-- Once the conn is closed, the read loop's next read fails and the loop
exits without any further observable effect. -/
theorem wsLoop_closed (cs : Option (clientMessage → String → Bool))
    (auth : clientMessage) (inputs : List (Option clientMessage))
    (dones : Nat → Option String) (k : Nat) (st : WsState)
    (h : st.closed = true) : (wsLoop cs auth inputs dones k st).1 = st := by
  cases inputs with
  | nil => rfl
  | cons i rest => simp [wsLoop, h]

theorem cmGet_cmSet (m : clientMessage) (k v : String) : cmGet (cmSet m k v) k = v := by
  simp [cmGet, cmSet, List.lookup]

theorem cmHas_cmSet (m : clientMessage) (k v : String) : cmHas (cmSet m k v) k = true := by
  simp [cmHas, cmSet, List.lookup]

/-! ### Claims -/

/-- C4: the spec fixes LongpollConnection.Send to append a MessageMessage to
the connection's pending queue; the source's `longpollConnection.Send` body
is empty, so for every queue and every (channel, body) the queue is left
unchanged and nothing is ever delivered on a later poll. -/
theorem C4_code_bug (pending : List clientMessage) (channel message : String) :
    lpConnSend pending channel message = pending := rfl

/-- C5 counterexample: a long-poll subsequent request of type
UnsubscribeMessage is not dispatched to Hub.Unsubscribe with an
UnsubscribeOKMessage reply; `Handle` falls to its default branch and the
whole observable effect is the HTTP 400 "Unexpected message" response. -/
theorem C5_counterexample :
    lpHandle none [] (lpUnsubMsg "test") none =
      [LpEvent.httpError 400 "Unexpected message"] := by decide

/-- C5 (amended): `longpollConnection.Handle` has no UnsubscribeMessage
case; every request whose type is UnsubscribeMessage takes the default
branch, producing only an HTTP 400 "Unexpected message" response, with no
command sent to the Hub. -/
theorem C5_corrected (cs : Option (clientMessage → String → Bool))
    (authData m : clientMessage) (done : Option String)
    (hm : mType m = UnsubscribeMessage) :
    lpHandle cs authData m done = [LpEvent.httpError 400 "Unexpected message"] ∧
    lpHubCmds (lpHandle cs authData m done) = [] := by
  have hne : (mType m == SubscribeMessage) = false := by rw [hm]; decide
  have h1 : lpHandle cs authData m done =
      [LpEvent.httpError 400 "Unexpected message"] := by
    simp [lpHandle, hne]
  exact ⟨h1, by rw [h1]; rfl⟩

theorem C5_corrected_witness :
    mType (lpUnsubMsg "x") = UnsubscribeMessage ∧
    (lpHandle none [] (lpUnsubMsg "x") none =
        [LpEvent.httpError 400 "Unexpected message"] ∧
     lpHubCmds (lpHandle none [] (lpUnsubMsg "x") none) = []) :=
  ⟨by decide, C5_corrected none [] (lpUnsubMsg "x") none (by decide)⟩

/-- C10: every long-poll subsequent request whose type is not
SubscribeMessage takes `Handle`'s default branch: the single observable
effect is the HTTP 400 "Unexpected message" response; no command is sent
to the Hub, so the connection's hub view (live set membership and every
subscription entry) is unchanged. -/
theorem C10_confirmed (cs : Option (clientMessage → String → Bool))
    (authData m : clientMessage) (done : Option String) (h : HubView)
    (hm : mType m ≠ SubscribeMessage) :
    lpHandle cs authData m done = [LpEvent.httpError 400 "Unexpected message"] ∧
    lpHubCmds (lpHandle cs authData m done) = [] ∧
    (lpHubCmds (lpHandle cs authData m done)).foldl applyLpCmd h = h := by
  have hne : (mType m == SubscribeMessage) = false := beq_eq_false_iff_ne.mpr hm
  have h1 : lpHandle cs authData m done =
      [LpEvent.httpError 400 "Unexpected message"] := by
    simp [lpHandle, hne]
  exact ⟨h1, by rw [h1]; rfl, by rw [h1]; rfl⟩

theorem C10_confirmed_witness :
    (mType (lpUnsubMsg "a") ≠ SubscribeMessage ∧
     (lpHandle none [] (lpUnsubMsg "a") none =
        [LpEvent.httpError 400 "Unexpected message"] ∧
      lpHubCmds (lpHandle none [] (lpUnsubMsg "a") none) = [] ∧
      (lpHubCmds (lpHandle none [] (lpUnsubMsg "a") none)).foldl applyLpCmd
        ⟨true, ["a"]⟩ = ⟨true, ["a"]⟩)) ∧
    (mType lpAuthReq ≠ SubscribeMessage ∧
     (lpHandle none [] lpAuthReq none =
        [LpEvent.httpError 400 "Unexpected message"] ∧
      lpHubCmds (lpHandle none [] lpAuthReq none) = [] ∧
      (lpHubCmds (lpHandle none [] lpAuthReq none)).foldl applyLpCmd
        ⟨true, []⟩ = ⟨true, []⟩)) :=
  ⟨⟨by decide, C10_confirmed none [] (lpUnsubMsg "a") none ⟨true, ["a"]⟩ (by decide)⟩,
   ⟨by decide, C10_confirmed none [] lpAuthReq none ⟨true, []⟩ (by decide)⟩⟩

/-- C3: the long-poll handshake POST: a body whose type is not AuthMessage
gets 401 with the single-element array [AuthFailedMessage "Auth expected"]
and no registration; a refused CanConnect gets 401 with
[AuthFailedMessage "Unauthorized"] and no registration; otherwise the
response is 200 with [AuthOKMessage carrying the freshly minted token] and
the connection is registered with the hub. -/
theorem C3_confirmed (cc : Option (clientMessage → Bool)) (auth : clientMessage)
    (token : String) :
    (mType auth ≠ AuthMessage →
      lpHandshake cc auth token =
        ⟨401, [lpAuthFailedMsg "Auth expected"], false, some "Auth expected"⟩) ∧
    (mType auth = AuthMessage → refusesConnect cc auth = true →
      lpHandshake cc auth token =
        ⟨401, [lpAuthFailedMsg "Unauthorized"], false, some "Unauthorized"⟩) ∧
    (mType auth = AuthMessage → refusesConnect cc auth = false →
      lpHandshake cc auth token = ⟨200, [lpAuthOkMsg token], true, none⟩) := by
  refine ⟨fun h => ?_, fun h1 h2 => ?_, fun h1 h2 => ?_⟩
  · have hb : (mType auth != AuthMessage) = true := bne_iff_ne.mpr h
    simp [lpHandshake, hb]
  · have hb : (mType auth != AuthMessage) = false := by rw [h1]; decide
    simp [lpHandshake, hb, h2]
  · have hb : (mType auth != AuthMessage) = false := by rw [h1]; decide
    simp [lpHandshake, hb, h2]

theorem C3_confirmed_witness :
    (mType blaMsg ≠ AuthMessage ∧
     lpHandshake none blaMsg "tok" =
       ⟨401, [lpAuthFailedMsg "Auth expected"], false, some "Auth expected"⟩) ∧
    (mType lpAuthReq = AuthMessage ∧
     refusesConnect (some (fun _ => false)) lpAuthReq = true ∧
     lpHandshake (some (fun _ => false)) lpAuthReq "tok" =
       ⟨401, [lpAuthFailedMsg "Unauthorized"], false, some "Unauthorized"⟩) ∧
    (refusesConnect none lpAuthReq = false ∧
     lpHandshake none lpAuthReq "tok" = ⟨200, [lpAuthOkMsg "tok"], true, none⟩) :=
  ⟨⟨by decide, (C3_confirmed none blaMsg "tok").1 (by decide)⟩,
   ⟨by decide, by decide,
    (C3_confirmed (some (fun _ => false)) lpAuthReq "tok").2.1 (by decide) (by decide)⟩,
   ⟨by decide,
    (C3_confirmed none lpAuthReq "tok").2.2 (by decide) (by decide)⟩⟩

/-- C1 counterexample: an authenticated socket connection whose
SubscribeMessage for "test" is refused by CanSubscribe does not receive a
SubscribeErrorMessage and the connection does not remain usable: the trace
is exactly AuthOK, hub registration, Close(403, "Channel refused"),
hub unregistration — no write of any SubscribeErrorMessage occurs and the
following UnsubscribeMessage on the same connection is never processed. -/
theorem C1_counterexample :
    (wsHandshake none denyAllSub
        [some authReq, some (subMsg "test"), some (unsubMsg "x")] noDones).1.events =
      [WsEvent.wsWrite authOkMsg, WsEvent.hubNewClient,
       WsEvent.wsClose 403 "Channel refused", WsEvent.hubClientDisconnect] ∧
    ((wsHandshake none denyAllSub
        [some authReq, some (subMsg "test"), some (unsubMsg "x")] noDones).1.events.all
      fun e =>
        match e with
        | WsEvent.wsWrite m => cmGet m "type" != SubscribeErrorMessage
        | WsEvent.hubUnsubscribe _ => false
        | _ => true) = true := by decide

/-- C1 (amended): when an authenticated socket connection reads a
SubscribeMessage that CanSubscribe refuses, the server closes the
connection with Close(403, "Channel refused") — it does not reply with a
SubscribeErrorMessage — and the refusal is terminal: although the read
loop formally continues, the closed conn makes every subsequent read fail,
so no further command on that connection is processed. -/
theorem C1_corrected (cs : Option (clientMessage → String → Bool))
    (auth m : clientMessage) (dones dones2 : Nat → Option String) (k k2 : Nat)
    (st : WsState) (rest : List (Option clientMessage))
    (hopen : st.closed = false)
    (hm : cmGet m "type" = SubscribeMessage)
    (href : refusesSubscribe cs auth (cmGet m "channel") = true) :
    (wsStep cs auth m dones k st).1 =
      ⟨true, st.events ++ [WsEvent.wsClose 403 "Channel refused"]⟩ ∧
    (wsLoop cs auth rest dones2 k2 (wsStep cs auth m dones k st).1).1 =
      (wsStep cs auth m dones k st).1 := by
  have hstep : (wsStep cs auth m dones k st).1 =
      ⟨true, st.events ++ [WsEvent.wsClose 403 "Channel refused"]⟩ := by
    simp [wsStep, hm, href, wsConnClose, hopen]
  refine ⟨hstep, ?_⟩
  rw [hstep]
  exact wsLoop_closed cs auth rest dones2 k2 _ rfl

theorem C1_corrected_witness :
    initWs.closed = false ∧
    cmGet (subMsg "test") "type" = SubscribeMessage ∧
    refusesSubscribe denyAllSub [] (cmGet (subMsg "test") "channel") = true ∧
    ((wsStep denyAllSub [] (subMsg "test") noDones 0 initWs).1 =
      ⟨true, initWs.events ++ [WsEvent.wsClose 403 "Channel refused"]⟩ ∧
     (wsLoop denyAllSub [] [some (unsubMsg "x")] noDones 0
        (wsStep denyAllSub [] (subMsg "test") noDones 0 initWs).1).1 =
      (wsStep denyAllSub [] (subMsg "test") noDones 0 initWs).1) :=
  ⟨rfl, by decide, by decide,
   C1_corrected denyAllSub [] (subMsg "test") noDones noDones 0 0 initWs
     [some (unsubMsg "x")] rfl (by decide) (by decide)⟩

/-- C2: on both transports, a Subscribe whose channel CanSubscribe refuses
causes no mutation: no command is sent to the Hub (the hub commands in the
trace are unchanged on the socket side and empty on the long-poll side, so
the subscription tables are untouched) and the text "Channel refused" is
returned to the client (as the Close(403) reason on the socket, as the
SubscribeErrorMessage error field on long-poll). -/
theorem C2_confirmed (cs : Option (clientMessage → String → Bool))
    (authW m authL mL : clientMessage) (dones : Nat → Option String) (k : Nat)
    (st : WsState) (done : Option String) (h : HubView)
    (hopen : st.closed = false)
    (hm : cmGet m "type" = SubscribeMessage)
    (hrefW : refusesSubscribe cs authW (cmGet m "channel") = true)
    (hmL : mType mL = SubscribeMessage)
    (hrefL : refusesSubscribe cs authL (cmGet mL "channel") = true) :
    (wsStep cs authW m dones k st).1.events =
      st.events ++ [WsEvent.wsClose 403 "Channel refused"] ∧
    wsHubCmds (wsStep cs authW m dones k st).1.events = wsHubCmds st.events ∧
    lpHandle cs authL mL done =
      [LpEvent.reply [lpSubscribeErrMsg (cmGet mL "channel") "Channel refused"]] ∧
    lpHubCmds (lpHandle cs authL mL done) = [] ∧
    (lpHubCmds (lpHandle cs authL mL done)).foldl applyLpCmd h = h := by
  have hstep : (wsStep cs authW m dones k st).1 =
      ⟨true, st.events ++ [WsEvent.wsClose 403 "Channel refused"]⟩ := by
    simp [wsStep, hm, hrefW, wsConnClose, hopen]
  have hbL : (mType mL == SubscribeMessage) = true := by rw [hmL]; decide
  have hlp : lpHandle cs authL mL done =
      [LpEvent.reply [lpSubscribeErrMsg (cmGet mL "channel") "Channel refused"]] := by
    simp [lpHandle, hbL, hrefL]
  refine ⟨by rw [hstep], ?_, hlp, by rw [hlp]; rfl, by rw [hlp]; rfl⟩
  rw [hstep]
  simp [wsHubCmds, List.filter_append, List.filter]

theorem C2_confirmed_witness :
    initWs.closed = false ∧
    cmGet (subMsg "test") "type" = SubscribeMessage ∧
    refusesSubscribe denyAllSub [] (cmGet (subMsg "test") "channel") = true ∧
    mType (lpSubMsg "test") = SubscribeMessage ∧
    refusesSubscribe denyAllSub [] (cmGet (lpSubMsg "test") "channel") = true ∧
    ((wsStep denyAllSub [] (subMsg "test") noDones 0 initWs).1.events =
       initWs.events ++ [WsEvent.wsClose 403 "Channel refused"] ∧
     wsHubCmds (wsStep denyAllSub [] (subMsg "test") noDones 0 initWs).1.events =
       wsHubCmds initWs.events ∧
     lpHandle denyAllSub [] (lpSubMsg "test") none =
       [LpEvent.reply [lpSubscribeErrMsg (cmGet (lpSubMsg "test") "channel")
          "Channel refused"]] ∧
     lpHubCmds (lpHandle denyAllSub [] (lpSubMsg "test") none) = [] ∧
     (lpHubCmds (lpHandle denyAllSub [] (lpSubMsg "test") none)).foldl applyLpCmd
       ⟨true, []⟩ = ⟨true, []⟩) :=
  ⟨rfl, by decide, by decide, by decide, by decide,
   C2_confirmed denyAllSub [] (subMsg "test") [] (lpSubMsg "test") noDones 0 initWs
     none ⟨true, []⟩ rfl (by decide) (by decide) (by decide) (by decide)⟩

/-- C6 counterexample: an authenticated socket connection reading an
UnsubscribeMessage sends the command to the hub and immediately writes
UnsubscribeOKMessage: the trace contains the UnsubscribeOK write yet no
receive on any command's Done channel ever occurs, so the wire-level reply
was not gated on the Hub's completion signal. -/
theorem C6_counterexample :
    (wsHandshake none none [some authReq, some (unsubMsg "test")] noDones).1.events =
      [WsEvent.wsWrite authOkMsg, WsEvent.hubNewClient,
       WsEvent.hubUnsubscribe "test", WsEvent.wsWrite (unsubscribeOkMsg "test")] ∧
    ((wsHandshake none none [some authReq, some (unsubMsg "test")] noDones).1.events.all
      fun e =>
        match e with
        | WsEvent.awaitDone _ => false
        | _ => true) = true := by decide

/-- C6 (amended): Subscribe commands do block the issuing transport task —
on both transports the hub command is followed by the receive on the
command's Done channel and only then by the SubscribeOK/SubscribeError
reply.  Unsubscribe does not: the socket transport writes
UnsubscribeOKMessage immediately after sending the command, never reading
its Done channel (and the long-poll transport issues no Unsubscribe
command at all). -/
theorem C6_corrected (cs : Option (clientMessage → String → Bool))
    (auth m mU authL mL : clientMessage) (dones : Nat → Option String) (k k2 : Nat)
    (st st2 : WsState) (done : Option String)
    (hopen : st.closed = false) (hopen2 : st2.closed = false)
    (hsub : cmGet m "type" = SubscribeMessage)
    (hallow : refusesSubscribe cs auth (cmGet m "channel") = false)
    (hunsub : cmGet mU "type" = UnsubscribeMessage)
    (hsubL : mType mL = SubscribeMessage)
    (hallowL : refusesSubscribe cs authL (cmGet mL "channel") = false) :
    (wsStep cs auth m dones k st).1.events =
      st.events ++ [WsEvent.hubSubscribe (cmGet m "channel"),
        WsEvent.awaitDone (cmGet m "channel"),
        WsEvent.wsWrite (wsSubReply (cmGet m "channel") (dones k))] ∧
    lpHandle cs authL mL done =
      [LpEvent.hubSubscribe (cmGet mL "channel"),
       LpEvent.awaitDone (cmGet mL "channel"),
       LpEvent.reply [lpSubReply (cmGet mL "channel") done]] ∧
    (wsStep cs auth mU dones k2 st2).1.events =
      st2.events ++ [WsEvent.hubUnsubscribe (cmGet mU "channel"),
        WsEvent.wsWrite (unsubscribeOkMsg (cmGet mU "channel"))] := by
  have hbL : (mType mL == SubscribeMessage) = true := by rw [hsubL]; decide
  have hd : ¬(UnsubscribeMessage = SubscribeMessage) := by decide
  refine ⟨?_, ?_, ?_⟩
  · simp [wsStep, hsub, hallow, emit, wsWrite, hopen]
  · simp [lpHandle, hbL, hallowL]
  · simp [wsStep, hunsub, emit, wsWrite, hopen2, hd]

theorem C6_corrected_witness :
    initWs.closed = false ∧
    cmGet (subMsg "a") "type" = SubscribeMessage ∧
    refusesSubscribe none [] (cmGet (subMsg "a") "channel") = false ∧
    cmGet (unsubMsg "b") "type" = UnsubscribeMessage ∧
    mType (lpSubMsg "c") = SubscribeMessage ∧
    refusesSubscribe none [] (cmGet (lpSubMsg "c") "channel") = false ∧
    ((wsStep none [] (subMsg "a") noDones 0 initWs).1.events =
       initWs.events ++ [WsEvent.hubSubscribe (cmGet (subMsg "a") "channel"),
         WsEvent.awaitDone (cmGet (subMsg "a") "channel"),
         WsEvent.wsWrite (wsSubReply (cmGet (subMsg "a") "channel") (noDones 0))] ∧
     lpHandle none [] (lpSubMsg "c") none =
       [LpEvent.hubSubscribe (cmGet (lpSubMsg "c") "channel"),
        LpEvent.awaitDone (cmGet (lpSubMsg "c") "channel"),
        LpEvent.reply [lpSubReply (cmGet (lpSubMsg "c") "channel") none]] ∧
     (wsStep none [] (unsubMsg "b") noDones 0 initWs).1.events =
       initWs.events ++ [WsEvent.hubUnsubscribe (cmGet (unsubMsg "b") "channel"),
         WsEvent.wsWrite (unsubscribeOkMsg (cmGet (unsubMsg "b") "channel"))]) :=
  ⟨rfl, by decide, by decide, by decide, by decide, by decide,
   C6_corrected none [] (subMsg "a") (unsubMsg "b") [] (lpSubMsg "c") noDones 0 0
     initWs initWs none rfl rfl (by decide) (by decide) (by decide) (by decide)
     (by decide)⟩

/-- C7: an unexpected message type while authenticated — on the socket
transport the step closes the connection with Close(400, "Unexpected
message") and is terminal: for any further inputs the read loop makes no
further observable step; on the long-poll transport `Handle` responds
HTTP 400 "Unexpected message", sends no hub command (the connection's hub
view, hence its subscriptions, are kept), and the same logical connection
may retry: a later valid SubscribeMessage is dispatched normally. -/
theorem C7_confirmed (cs : Option (clientMessage → String → Bool))
    (auth m authL mB mG : clientMessage) (dones dones2 : Nat → Option String)
    (k k2 : Nat) (st : WsState) (rest : List (Option clientMessage))
    (done done2 : Option String) (h : HubView)
    (hopen : st.closed = false)
    (hsub : cmGet m "type" ≠ SubscribeMessage)
    (hunsub : cmGet m "type" ≠ UnsubscribeMessage)
    (hB : mType mB ≠ SubscribeMessage)
    (hG : mType mG = SubscribeMessage)
    (hGok : refusesSubscribe cs authL (cmGet mG "channel") = false) :
    (wsStep cs auth m dones k st).1 =
      ⟨true, st.events ++ [WsEvent.wsClose 400 "Unexpected message"]⟩ ∧
    (wsLoop cs auth rest dones2 k2 (wsStep cs auth m dones k st).1).1 =
      (wsStep cs auth m dones k st).1 ∧
    lpHandle cs authL mB done = [LpEvent.httpError 400 "Unexpected message"] ∧
    (lpHubCmds (lpHandle cs authL mB done)).foldl applyLpCmd h = h ∧
    lpHandle cs authL mG done2 =
      [LpEvent.hubSubscribe (cmGet mG "channel"),
       LpEvent.awaitDone (cmGet mG "channel"),
       LpEvent.reply [lpSubReply (cmGet mG "channel") done2]] := by
  have hne1 : (cmGet m "type" == SubscribeMessage) = false :=
    beq_eq_false_iff_ne.mpr hsub
  have hne2 : (cmGet m "type" == UnsubscribeMessage) = false :=
    beq_eq_false_iff_ne.mpr hunsub
  have hneB : (mType mB == SubscribeMessage) = false := beq_eq_false_iff_ne.mpr hB
  have hbG : (mType mG == SubscribeMessage) = true := by rw [hG]; decide
  have hstep : (wsStep cs auth m dones k st).1 =
      ⟨true, st.events ++ [WsEvent.wsClose 400 "Unexpected message"]⟩ := by
    simp [wsStep, hne1, hne2, wsConnClose, hopen]
  have hlpB : lpHandle cs authL mB done =
      [LpEvent.httpError 400 "Unexpected message"] := by
    simp [lpHandle, hneB]
  refine ⟨hstep, ?_, hlpB, by rw [hlpB]; rfl, ?_⟩
  · rw [hstep]
    exact wsLoop_closed cs auth rest dones2 k2 _ rfl
  · simp [lpHandle, hbG, hGok]

theorem C7_confirmed_witness :
    initWs.closed = false ∧
    cmGet blaMsg "type" ≠ SubscribeMessage ∧
    cmGet blaMsg "type" ≠ UnsubscribeMessage ∧
    mType (lpUnsubMsg "t") ≠ SubscribeMessage ∧
    mType (lpSubMsg "t") = SubscribeMessage ∧
    refusesSubscribe none [] (cmGet (lpSubMsg "t") "channel") = false ∧
    ((wsStep none [] blaMsg noDones 0 initWs).1 =
       ⟨true, initWs.events ++ [WsEvent.wsClose 400 "Unexpected message"]⟩ ∧
     (wsLoop none [] [some (subMsg "t")] noDones 0
        (wsStep none [] blaMsg noDones 0 initWs).1).1 =
       (wsStep none [] blaMsg noDones 0 initWs).1 ∧
     lpHandle none [] (lpUnsubMsg "t") none =
       [LpEvent.httpError 400 "Unexpected message"] ∧
     (lpHubCmds (lpHandle none [] (lpUnsubMsg "t") none)).foldl applyLpCmd
       ⟨true, ["t"]⟩ = ⟨true, ["t"]⟩ ∧
     lpHandle none [] (lpSubMsg "t") none =
       [LpEvent.hubSubscribe (cmGet (lpSubMsg "t") "channel"),
        LpEvent.awaitDone (cmGet (lpSubMsg "t") "channel"),
        LpEvent.reply [lpSubReply (cmGet (lpSubMsg "t") "channel") none]]) :=
  ⟨rfl, by decide, by decide, by decide, by decide, by decide,
   C7_confirmed none [] blaMsg [] (lpUnsubMsg "t") (lpSubMsg "t") noDones noDones 0 0
     initWs [some (subMsg "t")] none none ⟨true, ["t"]⟩ rfl (by decide) (by decide)
     (by decide) (by decide) (by decide)⟩

/-- C9: a read or decode error on the first frame after the upgrade is
treated exactly like a well-formed non-auth first message: the handshake
produces the identical outcome — Close(401, "Auth expected"), handler
returns — and the connection is never registered with the hub. -/
theorem C9_confirmed (cc : Option (clientMessage → Bool))
    (cs : Option (clientMessage → String → Bool))
    (rest : List (Option clientMessage)) (dones : Nat → Option String)
    (auth : clientMessage)
    (hbad : cmGet auth "type" ≠ AuthMessage) :
    wsHandshake cc cs (none :: rest) dones =
      wsHandshake cc cs (some auth :: rest) dones ∧
    wsHandshake cc cs (none :: rest) dones =
      (⟨true, [WsEvent.wsClose 401 "Auth expected"]⟩, true) ∧
    WsEvent.hubNewClient ∉ (wsHandshake cc cs (none :: rest) dones).1.events := by
  have h2 : wsHandshake cc cs (none :: rest) dones =
      (⟨true, [WsEvent.wsClose 401 "Auth expected"]⟩, true) := rfl
  have hb : (cmGet auth "type" != AuthMessage) = true := bne_iff_ne.mpr hbad
  have h3 : wsHandshake cc cs (some auth :: rest) dones =
      (⟨true, [WsEvent.wsClose 401 "Auth expected"]⟩, true) := by
    simp [wsHandshake, hb, wsConnClose, initWs]
  exact ⟨h2.trans h3.symm, h2, by rw [h2]; simp⟩

theorem C9_confirmed_witness :
    cmGet blaMsg "type" ≠ AuthMessage ∧
    (wsHandshake none none [none, some (subMsg "t")] noDones =
       wsHandshake none none [some blaMsg, some (subMsg "t")] noDones ∧
     wsHandshake none none [none, some (subMsg "t")] noDones =
       (⟨true, [WsEvent.wsClose 401 "Auth expected"]⟩, true) ∧
     WsEvent.hubNewClient ∉
       (wsHandshake none none [none, some (subMsg "t")] noDones).1.events) :=
  ⟨by decide, C9_confirmed none none [some (subMsg "t")] noDones blaMsg (by decide)⟩

/-- C8 counterexample: the long-poll client's initial auth request does
carry a `__token` field — `Send` unconditionally stamps
`data["__token"] = t.token` and the fresh transport's token is the Go zero
value — so the posted body contains the key `__token` bound to `""`,
contradicting "sends no __token field on the initial auth request". -/
theorem C8_counterexample :
    cmHas (lpClientConnect newLpTransport [("user", "u")] false []).2 "__token" = true ∧
    cmGet (lpClientConnect newLpTransport [("user", "u")] false []).2 "__token" = "" := by
  decide

/-- C8 (amended): the long-poll client's initial auth request carries a
`__token` field holding the empty string (the transport's zero-valued
token) rather than omitting the field; the token is captured from the
AuthOKMessage when `Receive` consumes it, and every request body sent
afterwards carries that captured token under `__token`. -/
theorem C8_corrected (msgs msgs2 rest resp resp2 : List clientMessage)
    (authData data m : clientMessage) (tok : String)
    (hm : mType m = AuthOKMessage) :
    cmHas (lpClientConnect ⟨"", msgs⟩ authData false resp).2 "__token" = true ∧
    cmGet (lpClientConnect ⟨"", msgs⟩ authData false resp).2 "__token" = "" ∧
    (lpClientReceive ⟨tok, m :: rest⟩).1.token = mToken m ∧
    cmGet (lpClientSend ⟨tok, msgs2⟩ data resp2).2 "__token" = tok := by
  have hb : (mType m == AuthOKMessage) = true := by rw [hm]; decide
  refine ⟨?_, ?_, ?_, ?_⟩
  · simp [lpClientConnect, lpClientSend, cmHas_cmSet]
  · simp [lpClientConnect, lpClientSend, cmGet_cmSet]
  · simp [lpClientReceive, hb]
  · simp [lpClientSend, cmGet_cmSet]

theorem C8_corrected_witness :
    mType (lpAuthOkMsg "tok123") = AuthOKMessage ∧
    (cmHas (lpClientConnect ⟨"", []⟩ [("user", "u")] false []).2 "__token" = true ∧
     cmGet (lpClientConnect ⟨"", []⟩ [("user", "u")] false []).2 "__token" = "" ∧
     (lpClientReceive ⟨"", [lpAuthOkMsg "tok123"]⟩).1.token =
       mToken (lpAuthOkMsg "tok123") ∧
     cmGet (lpClientSend ⟨"tok123", []⟩ (lpSubMsg "test") []).2 "__token" = "tok123") :=
  ⟨by decide,
   C8_corrected [] [] [] [] [] [("user", "u")] (lpSubMsg "test")
     (lpAuthOkMsg "tok123") "tok123" (by decide)⟩

end Broadcaster
